import Mathlib

/-!
Shallow embedding of the orchestration core of `lwe/backends/api/backend.py`
(class `ApiBackend`): provider/preset/conversation switching, system-message
resolution, token bookkeeping and the `make_request` pipeline.

Mutable attributes of the backend object are gathered in `State`; external
collaborators (provider manager, preset store internals, message/conversation
storage, the `ApiRequest` helper and `util` functions that live outside this
module) are fields of `Env`.  Tri-state `(success, payload, message)` returns
are embedded as `Bool × Option α × String` when the source inspects the flag,
and as `Except String α` for collaborator calls whose payload is present
exactly on success.  Python `raise` is embedded as `Except.error`.
-/

namespace LweBackend

/-- Python dict lookup on an association list (first binding wins). -/
def dictLookup {α : Type} (k : String) : List (String × α) → Option α
  | [] => none
  | (k', v) :: rest => if k' = k then some v else dictLookup k rest

/-- Python dict assignment `d[k] = v` on an association list. -/
def dictSet {α : Type} (k : String) (v : α) : List (String × α) → List (String × α)
  | [] => [(k, v)]
  | (k', v') :: rest => if k' = k then (k, v) :: rest else (k', v') :: dictSet k v rest

/-- Request override maps (`request_overrides`, customization dicts) as
string-keyed association lists. -/
abbrev Overrides := List (String × String)

/-- Python truthiness of `x or default` for an optional integer:
`None` and `0` both fall through to the default (`backend.py:338`). -/
def pyOrInt (v : Option Int) (d : Int) : Int :=
  match v with
  | none => d
  | some n => if n = 0 then d else n

/-- Python truthiness of an optional integer id (`if conversation_id:`). -/
def optNatTruthy : Option Nat → Bool
  | none => false
  | some n => n != 0

/-- A provider plugin instance, as observed by this module: `get_capability('chat')`,
`max_submission_tokens()`, the model name reported by the instantiated model
client (`getattr(self.llm, self.provider.model_property_name)`), whether
`setup()` ran, and its customization dict. -/
structure Provider where
  capChat : Bool
  maxSubTokens : Int
  clientModelName : String
  wasSetup : Bool
  customizations : List (String × String)
deriving DecidableEq, Repr

/-- A stored preset: metadata (`provider` key, optional `system_message` key)
plus a customization map (`preset_manager.ensure_preset` payload). -/
structure Preset where
  provider : String
  system_message : Option String
  customizations : List (String × String)
deriving DecidableEq, Repr

/-- A stored conversation message as consumed here (`get_last_message` /
`get_messages` payload entries). -/
structure Msg where
  provider : String
  model : String
  preset : String
  role : String
  content : String
deriving DecidableEq, Repr

/-- The conversation row, as used by `switch_to_conversation`
(`conversation['conversation']['title']`). -/
structure ConvRecord where
  title : String
deriving DecidableEq, Repr

/-- Payload of `ApiBackend.get_conversation`. -/
structure ConvData where
  title : String
  messages : List Msg
deriving DecidableEq, Repr

/-- Result payload of `store_conversation_messages`: either a `Conversation`
ORM entity (the `isinstance(response_obj, Conversation)` branch) or
anything else. -/
inductive StoreResult where
  | conversation (id : Nat) (title : String)
  | other
deriving DecidableEq, Repr

/-- Observable events emitted by the embedded control flow, used to state
ordering / warning properties.  `warning` stands for
`util.print_status_message(False, ...)`. -/
inductive Event where
  | warning (msg : String)
  | calledLLM
  | storedResponse
  | activatedPreset (name : String)
  | configuredByPreset (name : String)
  | configuredByProviderModel (provider model : String)
  | fellBackToDefault
  | recomputedTokens (n : Nat)
deriving DecidableEq, Repr

/-- Mutable attributes of the `ApiBackend` object. `request_overrides` mirrors
the attribute `self.request_overrides` read in `make_request` (line 512); no
method of this module ever assigns it.  `preset_store` is the state behind
`preset_manager` (initialized outside this module). -/
structure State where
  provider_name : String
  provider : Provider
  model : String
  active_preset : Option Preset
  active_preset_name : Option String
  system_message : String
  system_message_alias : Option String
  conversation_id : Option Nat
  conversation_title : Option String
  conversation_tokens : Option Nat
  max_submission_tokens : Int
  message_clipboard : Option String
  return_only : Bool
  preset_store : List (String × Preset)
  request_overrides : Overrides
deriving DecidableEq, Repr

/-- Inputs `make_request` hands to the external `ApiRequest` helper
(constructor arguments at `backend.py:516-527`). -/
structure ReqKey where
  input : String
  active_preset : Option Preset
  preset_store : List (String × Preset)
  system_message : String
  old_messages : List Msg
  conversation_tokens : Option Nat
  max_submission_tokens : Int
  request_overrides : Overrides
  provider : Provider
deriving DecidableEq, Repr

/-- External collaborators of the module.  Functions on `Provider` model its
duck-typed methods; `superSetModel` and `extract` / `ApiRequest` /
storage-manager fields model repository code that lives outside this file. -/
structure Env where
  /-- `provider_manager.full_name` -/
  fullName : String → String
  /-- `provider_manager.load_provider` -/
  loadProvider : String → Except String Provider
  /-- `provider_manager.get_provider_from_name` -/
  getProviderFromName : String → Option Provider
  /-- `provider.set_customization_value(key, value)` (duck-typed provider method) -/
  setCustomizationValue : Provider → String → String → Bool × Provider × String
  /-- Modelled from the spec: the base-class `set_model` ("sets the active
  model to the client's current model name", §4.1); `lwe/core/backend.py` is
  not part of the reviewed sources. -/
  superSetModel : Provider → String → Bool × Option (List (String × String)) × String
  /-- `message.get_last_message(conversation_id)` -/
  getLastMessage : Nat → Except String Msg
  /-- `conversation.get_conversation(id)` -/
  convGetConversation : Nat → Except String ConvRecord
  /-- `message.get_messages(id)` -/
  getMessages : Nat → Except String (List Msg)
  /-- `ConversationStorageManager(...).get_conversation_token_count()`,
  keyed by the manager's conversation id -/
  tokenCount : Option Nat → Nat
  /-- Modelled from the spec: `util.extract_preset_configuration_from_request_overrides`
  ("extract any preset-activation override embedded in the override map,
  producing (presetNameToActivateAfter, overridesSansPreset, activateFlag)",
  §4.6); `lwe/core/util.py` is not part of the reviewed sources. -/
  extract : Overrides → Option String → Except String (String × Overrides × Bool)
  /-- `ApiRequest.prepare_ask_request()` -/
  prepareAskRequest : ReqKey → List Msg × List Msg
  /-- `ApiRequest.call_llm(messages)` -/
  callLLM : ReqKey → List Msg → Except String String
  /-- `ApiRequest.post_response(response_obj, new_messages)` -/
  postResponse : String → List Msg → String × List Msg
  /-- `ConversationStorageManager(...).store_conversation_messages(new_messages, response_content, title)` -/
  storeConversationMessages : Option Nat → ReqKey → List Msg → String → Option String → Except String StoreResult
  /-- `config.get('model.system_message')` -/
  config_system_message_aliases : List (String × String)
  /-- `config.get('model.default_system_message')` -/
  config_default_system_message : String
  /-- `config.get('model.default_preset')` (empty string when unset/falsy) -/
  config_default_preset : String

/-- `lwe.core.constants.SYSTEM_MESSAGE_DEFAULT`. Modelled from the spec: a
fixed built-in default message constant (`lwe/core/constants.py` is not part
of the reviewed sources); its exact text is irrelevant to the claims. -/
def SYSTEM_MESSAGE_DEFAULT : String := "You are a helpful assistant."

/-- `get_system_message_aliases` (`backend.py:355-364`): config aliases with
the built-in `default` entry written over them. -/
def get_system_message_aliases (env : Env) : List (String × String) :=
  dictSet "default" SYSTEM_MESSAGE_DEFAULT env.config_system_message_aliases

/-- `get_system_message` (`backend.py:300-312`). -/
def get_system_message (env : Env) (system_message : String) : String :=
  match dictLookup system_message (get_system_message_aliases env) with
  | some v => v
  | none => system_message

/-- `set_system_message` (`backend.py:314-325`). -/
def set_system_message (env : Env) (st : State) (system_message : String) :
    (Bool × String × String) × State :=
  let resolved := get_system_message env system_message
  let aliasValue :=
    if (dictLookup system_message (get_system_message_aliases env)).isSome
    then some system_message else none
  ((true, system_message, s!"System message set to: {resolved}"),
   { st with system_message := resolved, system_message_alias := aliasValue })

/-- `set_max_submission_tokens` (`backend.py:327-340`).  Note
`max_submission_tokens or self.provider.max_submission_tokens()`:
`None` and `0` both fall through to the provider maximum. -/
def set_max_submission_tokens (st : State) (max_submission_tokens : Option Int)
    (force : Bool) : (Bool × Option Int × String) × State :=
  let chat := st.provider.capChat
  if chat || force then
    let m := pyOrInt max_submission_tokens st.provider.maxSubTokens
    ((true, some m, s!"Max submission tokens set to {m}"),
     { st with max_submission_tokens := m })
  else
    ((false, none, "Setting max submission tokens not supported for this provider"), st)

/-- `set_model` (`backend.py:169-181`): delegates to the base-class
`set_model`, then forces a `max_submission_tokens` recomputation. -/
def set_model (env : Env) (st : State) (model_name : String) :
    (Bool × Option (List (String × String)) × String) × State :=
  let r := env.superSetModel st.provider model_name
  let st := if r.1 then { st with model := model_name } else st
  let st := (set_max_submission_tokens st none true).2
  (r, st)

/-- The customization loop of `set_provider` (`backend.py:155-159`): apply
each key/value, abort at the first failure, keeping the provider mutations
already applied. -/
def applyCustomizations (env : Env) (p : Provider) :
    List (String × String) → Bool × Provider × String
  | [] => (true, p, "")
  | (k, v) :: rest =>
    match env.setCustomizationValue p k v with
    | (true, p', _) => applyCustomizations env p' rest
    | (false, p', m) => (false, p', m)

/-- `set_provider` (`backend.py:131-162`).  Note the source clears
`active_preset` / `active_preset_name` before the "already set" check. -/
def set_provider (env : Env) (st : State) (provider_name : String)
    (customizations : Option (List (String × String))) (reset : Bool) :
    (Bool × Option Provider × String) × State :=
  let st := { st with active_preset := none, active_preset_name := none }
  let provider_full_name := env.fullName provider_name
  if st.provider_name = provider_full_name ∧ reset = false then
    ((false, none, s!"Provider {provider_name} already set"), st)
  else
    match env.loadProvider provider_full_name with
    | .error msg => ((false, none, msg), st)
    | .ok provider =>
      let provider := { provider with wasSetup := true }
      let st := { st with provider_name := provider_full_name, provider := provider }
      match customizations with
      | some cust =>
        let r := applyCustomizations env provider cust
        let p' := r.2.1
        if r.1 then
          let st := { st with provider := p' }
          let st := (set_model env st p'.clientModelName).2
          ((true, some p', ""), st)
        else ((false, none, r.2.2), { st with provider := p' })
      | none =>
        let st := (set_model env st provider.clientModelName).2
        ((true, some provider, ""), st)

/-- Modelled from the spec: `preset_manager.ensure_preset` ("resolves a preset
name to (metadata, customizations)", §6); the preset manager is initialized by
the base class outside this module, so its store is carried in `State`. -/
def ensure_preset (st : State) (preset_name : String) :
    Bool × Option Preset × String :=
  match dictLookup preset_name st.preset_store with
  | some p => (true, some p, "")
  | none => (false, none, s!"Preset {preset_name} not found")

/-- `activate_preset` (`backend.py:195-216`).  `copy.deepcopy` of the
customization map is the identity under value semantics; the stored preset is
read from `preset_store` and never written back. -/
def activate_preset (env : Env) (st : State) (preset_name : String) :
    (Bool × Option Preset × String) × State :=
  match ensure_preset st preset_name with
  | (true, some preset, _) =>
    let customizations := preset.customizations
    let r := set_provider env st preset.provider (some customizations) true
    let st' := r.2
    if r.1.1 then
      let st'' := { st' with active_preset := some preset, active_preset_name := some preset_name }
      let st''' :=
        match preset.system_message with
        | some sm => (set_system_message env st'' sm).2
        | none => st''
      ((true, some preset, r.1.2.2), st''')
    else ((false, some preset, r.1.2.2), st')
  | (ok, preset, msg) => ((ok, preset, msg), st)

/-- `set_conversation_tokens` (`backend.py:236-253`). -/
def set_conversation_tokens (env : Env) (st : State) (tokens : Nat) :
    Except String State :=
  match st.conversation_id with
  | none =>
    let provider := some st.provider
    .ok { st with conversation_tokens :=
            if provider.elim false (fun p => p.capChat) then some tokens else none }
  | some cid =>
    match env.getLastMessage cid with
    | .error m => .error m
    | .ok last_message =>
      let provider := env.getProviderFromName last_message.provider
      .ok { st with conversation_tokens :=
              if provider.elim false (fun p => p.capChat) then some tokens else none }

/-- `retrieve_old_messages` (`backend.py:366-382`): empty list when no (truthy)
conversation id, otherwise the stored messages, raising on storage failure. -/
def retrieve_old_messages (env : Env) (conversation_id : Option Nat) :
    Except String (List Msg) :=
  if optNatTruthy conversation_id then
    match conversation_id with
    | some cid => env.getMessages cid
    | none => .ok []
  else .ok []

/-- `get_conversation` (`backend.py:461-482`): falls back to the current
conversation id when the argument is falsy, then loads the conversation row
and its messages. -/
def get_conversation (env : Env) (st : State) (id? : Option Nat) :
    Bool × Option ConvData × String :=
  let effId := if optNatTruthy id? then id? else st.conversation_id
  if optNatTruthy effId then
    match effId with
    | some i =>
      (match env.convGetConversation i with
       | .error m => (false, none, m)
       | .ok conversation =>
         match env.getMessages i with
         | .error m => (false, none, m)
         | .ok messages => (true, some ⟨conversation.title, messages⟩, ""))
    | none => (false, none, "No current conversation")
  else (false, none, "No current conversation")

/-- `init_system_message` (`backend.py:107-112`): applies the configured
default system message (`set_system_message` never fails, so the fallback
branch is defensive dead code, kept for fidelity). -/
def init_system_message (env : Env) (st : State) : State :=
  let r := set_system_message env st env.config_default_system_message
  if r.1.1 then r.2 else (set_system_message env r.2 "default").2

/-- `init_provider` (`backend.py:118-129`): default preset if configured,
falling back to the hardcoded default provider with a printed warning. -/
def init_provider (env : Env) (st : State) : State × List Event :=
  let st := init_system_message env st
  let st := { st with active_preset := none, active_preset_name := none }
  let default_preset := env.config_default_preset
  if default_preset ≠ "" then
    let r := activate_preset env st default_preset
    if r.1.1 then (r.2, [])
    else
      let st'' := (set_provider env r.2 "provider_chat_openai" none false).2
      (st'', [Event.warning s!"Failed to load default preset {default_preset}: {r.1.2.2}"])
  else ((set_provider env st "provider_chat_openai" none false).2, [])

/-- State right after `switch_to_conversation` records the loaded conversation
id and title (`backend.py:264-265`), used to phrase properties about the
reconstruction attempts that start from it. -/
def stWithConv (st : State) (cid : Nat) (cd : ConvData) : State :=
  { st with conversation_id := some cid, conversation_title := some cd.title }

/-- `switch_to_conversation` (`backend.py:255-298`): hard error when the
conversation or its last message cannot be loaded, then the layered
reconstruction (preset, then provider+model, then `init_provider` with a
warning), then the token recomputation. -/
def switch_to_conversation (env : Env) (st : State) (conversation_id : Nat) :
    Except String (State × List Event) :=
  match get_conversation env st (some conversation_id) with
  | (true, some conversation, _) =>
    let st := stWithConv st conversation_id conversation
    match env.getLastMessage conversation_id with
    | .error m => .error m
    | .ok last_message =>
      let step1 : State × Bool × List Event :=
        if last_message.preset ≠ "" then
          let r := activate_preset env st last_message.preset
          if r.1.1 then (r.2, true, [Event.configuredByPreset last_message.preset])
          else (r.2, false,
            [Event.warning s!"Unable to switch conversation to previous preset \x27{last_message.preset}\x27 -- ERROR: {r.1.2.2}, falling back to provider: {last_message.provider}, model: {last_message.model}"])
        else (st, false, [])
      let step2 : State × Bool × List Event :=
        if step1.2.1 = false ∧ last_message.provider ≠ "" ∧ last_message.model ≠ "" then
          let r := set_provider env step1.1 last_message.provider none true
          if r.1.1 then
            let r2 := set_model env r.2 last_message.model
            if r2.1.1 then
              (init_system_message env r2.2, true,
               [Event.configuredByProviderModel last_message.provider last_message.model])
            else (r2.2, false, [])
          else (r.2, false, [])
        else (step1.1, step1.2.1, [])
      let step3 : State × List Event :=
        if step2.2.1 = false then
          let r := init_provider env step2.1
          (r.1, [Event.warning "Invalid conversation provider/model, falling back to default provider/model", Event.fellBackToDefault] ++ r.2)
        else (step2.1, [])
      let tokens := env.tokenCount (some conversation_id)
      match set_conversation_tokens env step3.1 tokens with
      | .error m => .error m
      | .ok st' => .ok (st', step1.2.2 ++ step2.2.2 ++ step3.2 ++ [Event.recomputedTokens tokens])
  | (_, _, msg) => .error msg

/-- `make_request` (`backend.py:497-555`).  Note line 512 extracts the preset
configuration from the attribute `self.request_overrides`, not from the
`request_overrides` parameter of the call; the parameter feeds the
`ApiRequest` context and the title lookup. -/
def make_request (env : Env) (st : State) (input : String)
    (request_overrides : Overrides) :
    Except String ((Bool × Option String × String) × State × List Event) :=
  match retrieve_old_messages env st.conversation_id with
  | .error m => .error m
  | .ok old_messages =>
    match env.extract st.request_overrides st.active_preset_name with
    | .error msg => .ok ((false, none, msg), st, [])
    | .ok (preset_name, _preset_overrides, activate_preset_flag) =>
      let key : ReqKey :=
        { input := input, active_preset := st.active_preset,
          preset_store := st.preset_store, system_message := st.system_message,
          old_messages := old_messages,
          conversation_tokens := st.conversation_tokens,
          max_submission_tokens := st.max_submission_tokens,
          request_overrides := request_overrides, provider := st.provider }
      let prepared := env.prepareAskRequest key
      let new_messages := prepared.1
      match env.callLLM key prepared.2 with
      | .error m => .ok ((false, none, m), st, [Event.calledLLM])
      | .ok response_obj =>
        let post := env.postResponse response_obj new_messages
        let response_content := post.1
        let new_messages2 := post.2
        let st := { st with message_clipboard := some response_content }
        let title := dictLookup "title" request_overrides
        match env.storeConversationMessages st.conversation_id key new_messages2 response_content title with
        | .error m => .ok ((false, none, m), st, [Event.calledLLM])
        | .ok store_result =>
          let afterStore : Except String State :=
            match store_result with
            | .conversation cid ctitle =>
              let st := { st with conversation_id := some cid,
                                  conversation_title := some ctitle }
              let tokens := env.tokenCount (some cid)
              set_conversation_tokens env st tokens
            | .other => .ok st
          match afterStore with
          | .error m => .error m
          | .ok st2 =>
            let (st3, ev) :=
              if activate_preset_flag then
                ((activate_preset env st2 preset_name).2, [Event.activatedPreset preset_name])
              else (st2, [])
            .ok ((true, some response_content, ""), st3,
                 [Event.calledLLM, Event.storedResponse] ++ ev)

/-- Events marking that one of the three reconstruction paths of
`switch_to_conversation` configured the session. -/
def isConfigEvent : Event → Bool
  | .configuredByPreset _ => true
  | .configuredByProviderModel _ _ => true
  | .fellBackToDefault => true
  | _ => false

/-- Number of configuration events in a trace. -/
def configCount (tr : List Event) : Nat := (tr.filter isConfigEvent).length

/-! Concrete providers, presets, environments and states used by the
counterexamples and witnesses below. -/

/-- A chat-capable provider. -/
def provChat : Provider :=
  { capChat := true, maxSubTokens := 4096, clientModelName := "gpt-4",
    wasSetup := false, customizations := [] }

/-- A provider without chat capability. -/
def provNoChat : Provider :=
  { capChat := false, maxSubTokens := 100, clientModelName := "echo-1",
    wasSetup := false, customizations := [] }

/-- A stored preset pointing at provider `local-llm`. -/
def presetCreative : Preset :=
  { provider := "local-llm", system_message := none,
    customizations := [("temperature", "1.5")] }

/-- A stored preset pointing at the default chat provider. -/
def presetFast : Preset :=
  { provider := "provider_chat_openai", system_message := none,
    customizations := [] }

/-- A benign environment in which every collaborator call succeeds; its
`extract` looks up a `preset` key in the override map it is given. -/
def env0 : Env :=
  { fullName := fun n => n,
    loadProvider := fun _ => .ok provChat,
    getProviderFromName := fun _ => some provChat,
    setCustomizationValue := fun p k v =>
      (true, { p with customizations := dictSet k v p.customizations }, ""),
    superSetModel := fun _ _ => (true, some [], ""),
    getLastMessage := fun _ =>
      .ok { provider := "provider_chat_openai", model := "gpt-4", preset := "",
            role := "assistant", content := "hi" },
    convGetConversation := fun _ => .ok { title := "Chat 7" },
    getMessages := fun _ => .ok [],
    tokenCount := fun _ => 5,
    extract := fun ov _ =>
      match dictLookup "preset" ov with
      | some n => .ok (n, ov.filter (fun kv => kv.1 ≠ "preset"), true)
      | none => .ok ("", ov, false),
    prepareAskRequest := fun _ => ([], []),
    callLLM := fun _ _ => .ok "llm-response",
    postResponse := fun r ms => (r, ms),
    storeConversationMessages := fun _ _ _ _ _ => .ok .other,
    config_system_message_aliases := [("friendly", "Be friendly.")],
    config_default_system_message := "default",
    config_default_preset := "" }

/-- A backend state with the default chat provider active and no active
conversation or preset. -/
def st0 : State :=
  { provider_name := "provider_chat_openai", provider := provChat, model := "gpt-4",
    active_preset := none, active_preset_name := none,
    system_message := SYSTEM_MESSAGE_DEFAULT, system_message_alias := some "default",
    conversation_id := none, conversation_title := none, conversation_tokens := some 0,
    max_submission_tokens := 4096, message_clipboard := none, return_only := false,
    preset_store := [("creative", presetCreative), ("fast-mode", presetFast)],
    request_overrides := [] }

/-- `st0` with an active preset recorded. -/
def stC1 : State :=
  { st0 with active_preset := some presetCreative,
             active_preset_name := some "mypreset" }

/-- Environment in which loading any provider fails. -/
def envLoadFail : Env :=
  { env0 with loadProvider := fun n => .error s!"Unable to load provider: {n}" }

/-- `st0` with a non-chat provider active. -/
def stNoChat : State := { st0 with provider := provNoChat }

/-- `st0` whose stored `request_overrides` attribute asks for a deferred
activation of `fast-mode`. -/
def stC7 : State := { st0 with request_overrides := [("preset", "fast-mode")] }

/-- A last stored message naming the preset `creative`. -/
def msgCreative : Msg :=
  { provider := "local-llm", model := "llm-7b", preset := "creative",
    role := "assistant", content := "hi" }

/-- Environment whose last stored message names the preset `creative`. -/
def envC8 : Env :=
  { env0 with getLastMessage := fun _ => .ok msgCreative }

/-! Theorems.  Helper lemmas first, then one theorem per claim (with
counterexamples and witnesses where required). -/

/-- Writing a key always makes it the key's binding. -/
theorem dictLookup_dictSet_self {α : Type} (k : String) (v : α) :
    ∀ d : List (String × α), dictLookup k (dictSet k v d) = some v := by
  intro d
  induction d with
  | nil => simp [dictSet, dictLookup]
  | cons hd tl ih =>
    obtain ⟨k', v'⟩ := hd
    by_cases h : k' = k
    · simp [dictSet, h, dictLookup]
    · simp [dictSet, h, dictLookup, ih]

/-- `set_max_submission_tokens` only writes `max_submission_tokens`. -/
theorem set_max_submission_tokens_state (st : State) (v : Option Int) (f : Bool) :
    (set_max_submission_tokens st v f).2 =
      { st with max_submission_tokens :=
          (set_max_submission_tokens st v f).2.max_submission_tokens } := by
  simp only [set_max_submission_tokens]
  split
  · rfl
  · rfl

/-- `set_model` only writes `model` and `max_submission_tokens`. -/
theorem set_model_state (env : Env) (st : State) (mn : String) :
    (set_model env st mn).2 =
      { st with
          model := if (env.superSetModel st.provider mn).1 then mn else st.model,
          max_submission_tokens := st.provider.maxSubTokens } := by
  simp only [set_model, set_max_submission_tokens, pyOrInt, Bool.or_true, if_true]
  cases h : (env.superSetModel st.provider mn).1 <;> simp [h]

/-- `set_provider` never touches the preset store, the conversation fields,
the system message or the stored override attribute, and leaves
`active_preset` / `active_preset_name` cleared on every path. -/
theorem set_provider_frame (env : Env) (st : State) (n : String)
    (c : Option (List (String × String))) (r : Bool) :
    (set_provider env st n c r).2.preset_store = st.preset_store ∧
    (set_provider env st n c r).2.conversation_id = st.conversation_id ∧
    (set_provider env st n c r).2.conversation_tokens = st.conversation_tokens ∧
    (set_provider env st n c r).2.active_preset = none ∧
    (set_provider env st n c r).2.active_preset_name = none ∧
    (set_provider env st n c r).2.system_message = st.system_message ∧
    (set_provider env st n c r).2.request_overrides = st.request_overrides := by
  simp only [set_provider]
  split
  · exact ⟨rfl, rfl, rfl, rfl, rfl, rfl, rfl⟩
  · split
    · exact ⟨rfl, rfl, rfl, rfl, rfl, rfl, rfl⟩
    · split
      · split
        · refine ⟨?_, ?_, ?_, ?_, ?_, ?_, ?_⟩ <;> rw [set_model_state]
        · exact ⟨rfl, rfl, rfl, rfl, rfl, rfl, rfl⟩
      · refine ⟨?_, ?_, ?_, ?_, ?_, ?_, ?_⟩ <;> rw [set_model_state]

/-- `set_system_message` only writes the two system-message fields. -/
theorem set_system_message_state (env : Env) (st : State) (x : String) :
    (set_system_message env st x).2 =
      { st with
          system_message := get_system_message env x,
          system_message_alias :=
            if (dictLookup x (get_system_message_aliases env)).isSome
            then some x else none } := rfl

/-- `activate_preset` never touches the preset store, the conversation fields
or the stored override attribute. -/
theorem activate_preset_frame (env : Env) (st : State) (name : String) :
    (activate_preset env st name).2.preset_store = st.preset_store ∧
    (activate_preset env st name).2.conversation_id = st.conversation_id ∧
    (activate_preset env st name).2.conversation_tokens = st.conversation_tokens ∧
    (activate_preset env st name).2.request_overrides = st.request_overrides := by
  simp only [activate_preset]
  split
  · split
    · split
      · rw [set_system_message_state]
        refine ⟨?_, ?_, ?_, ?_⟩
        · exact (set_provider_frame env st _ _ true).1
        · exact (set_provider_frame env st _ _ true).2.1
        · exact (set_provider_frame env st _ _ true).2.2.1
        · exact (set_provider_frame env st _ _ true).2.2.2.2.2.2
      · refine ⟨?_, ?_, ?_, ?_⟩
        · exact (set_provider_frame env st _ _ true).1
        · exact (set_provider_frame env st _ _ true).2.1
        · exact (set_provider_frame env st _ _ true).2.2.1
        · exact (set_provider_frame env st _ _ true).2.2.2.2.2.2
    · refine ⟨?_, ?_, ?_, ?_⟩
      · exact (set_provider_frame env st _ _ true).1
      · exact (set_provider_frame env st _ _ true).2.1
      · exact (set_provider_frame env st _ _ true).2.2.1
      · exact (set_provider_frame env st _ _ true).2.2.2.2.2.2
  · exact ⟨rfl, rfl, rfl, rfl⟩

/-- C10: for every configuration, the alias table maps `default` to the
built-in default system message constant (overriding any configured alias of
that name), so `get_system_message` on `default` always yields the constant. -/
theorem c10_default_alias_overrides_config (env : Env) :
    dictLookup "default" (get_system_message_aliases env) = some SYSTEM_MESSAGE_DEFAULT ∧
    get_system_message env "default" = SYSTEM_MESSAGE_DEFAULT := by
  refine ⟨dictLookup_dictSet_self _ _ _, ?_⟩
  simp [get_system_message, get_system_message_aliases, dictLookup_dictSet_self]

/-- C6: `set_system_message` always succeeds; the stored system message is the
alias table entry when the input is a known alias key and the literal input
otherwise; `system_message_alias` records the input exactly when it is a known
alias key and is cleared otherwise. -/
theorem c6_set_system_message (env : Env) (st : State) (x : String) :
    (set_system_message env st x).1.1 = true ∧
    (set_system_message env st x).1.2.1 = x ∧
    (set_system_message env st x).2.system_message =
      (match dictLookup x (get_system_message_aliases env) with
       | some v => v
       | none => x) ∧
    (set_system_message env st x).2.system_message_alias =
      (if (dictLookup x (get_system_message_aliases env)).isSome then some x else none) :=
  ⟨rfl, rfl, rfl, rfl⟩

/-- C4 counterexample: the claim as stated fails for an explicit value of 0 on
a chat-capable provider: the source computes
`max_submission_tokens or self.provider.max_submission_tokens()`, so 0 is
replaced by the provider maximum (4096), not stored. -/
theorem c4_counterexample :
    st0.provider.capChat = true ∧
    (set_max_submission_tokens st0 (some 0) false).1.1 = true ∧
    (set_max_submission_tokens st0 (some 0) false).2.max_submission_tokens = 4096 ∧
    (set_max_submission_tokens st0 (some 0) false).2.max_submission_tokens ≠ 0 := by
  refine ⟨rfl, rfl, rfl, by decide⟩

/-- C4 (amended): if the active provider declares chat capability or `force`
is true, `set_max_submission_tokens` succeeds and sets the value to the
explicit value when it is given and nonzero, and to the provider's declared
maximum when it is absent or 0; otherwise it fails with the message
"Setting max submission tokens not supported for this provider" and the state
is unchanged. -/
theorem c4_set_max_submission_tokens (st : State) (v : Option Int) (force : Bool) :
    ((st.provider.capChat || force) = true →
       (set_max_submission_tokens st v force).1.1 = true ∧
       (set_max_submission_tokens st v force).2.max_submission_tokens =
         (match v with
          | some n => if n = 0 then st.provider.maxSubTokens else n
          | none => st.provider.maxSubTokens) ∧
       (set_max_submission_tokens st v force).1.2.1 =
         some (set_max_submission_tokens st v force).2.max_submission_tokens) ∧
    ((st.provider.capChat || force) = false →
       set_max_submission_tokens st v force =
         ((false, none, "Setting max submission tokens not supported for this provider"), st)) := by
  constructor
  · intro h
    refine ⟨?_, ?_, ?_⟩
    · simp [set_max_submission_tokens, h]
    · cases v <;> simp [set_max_submission_tokens, h, pyOrInt]
    · simp [set_max_submission_tokens, h]
  · intro h
    simp [set_max_submission_tokens, h]

/-- C4 witness: concrete instances of both branches of the amended claim. -/
theorem c4_set_max_submission_tokens_witness :
    (set_max_submission_tokens st0 (some 0) false).2.max_submission_tokens =
      st0.provider.maxSubTokens ∧
    set_max_submission_tokens stNoChat none false =
      ((false, none, "Setting max submission tokens not supported for this provider"), stNoChat) := by
  constructor
  · exact ((c4_set_max_submission_tokens st0 (some 0) false).1 (by decide)).2.1
  · exact (c4_set_max_submission_tokens stNoChat none false).2 (by decide)

/-- C1: evaluation at the failing input.  With provider `provider_chat_openai`
already active and an active preset recorded, `set_provider` with `reset`
false returns the "already set" failure, but clears `active_preset` and
`active_preset_name` instead of leaving every field of the session state
unchanged (the source clears them before the idempotence check). -/
theorem c1_already_set_clears_preset :
    stC1.active_preset_name = some "mypreset" ∧
    stC1.active_preset = some presetCreative ∧
    set_provider env0 stC1 "provider_chat_openai" none false =
      ((false, none, "Provider provider_chat_openai already set"),
       { stC1 with active_preset := none, active_preset_name := none }) ∧
    ({ stC1 with active_preset := none, active_preset_name := none }).active_preset_name ≠
      stC1.active_preset_name := by
  refine ⟨rfl, rfl, by decide, by decide⟩

/-- C9: a single activation never mutates the stored preset definitions —
`activate_preset` reads the preset store and leaves it identical, whether the
activation succeeds or fails (the source operates on a `copy.deepcopy` of the
customization map). -/
theorem c9_activate_preset_preserves_store (env : Env) (st : State) (name : String) :
    (activate_preset env st name).2.preset_store = st.preset_store :=
  (activate_preset_frame env st name).1

/-- C2 counterexample: with an active preset recorded and a provider switch
that fails to load, `activate_preset "creative"` returns failure but the
previously active preset name is cleared to `none`, not left unchanged as the
claim states. -/
theorem c2_counterexample :
    stC1.active_preset_name = some "mypreset" ∧
    (activate_preset envLoadFail stC1 "creative").1.1 = false ∧
    (activate_preset envLoadFail stC1 "creative").2.active_preset_name = none ∧
    (activate_preset envLoadFail stC1 "creative").2.active_preset_name ≠
      stC1.active_preset_name := by
  refine ⟨rfl, rfl, by decide, by decide⟩

/-- C2 (amended): when the preset resolves but the underlying provider switch
fails, `activate_preset` returns failure, the failed preset is not recorded as
active, and the previously active preset name is cleared to null (not left
unchanged): `set_provider` clears both preset fields on entry. -/
theorem c2_activate_preset_failure (env : Env) (st : State) (name : String)
    (pr : Preset) (hstore : dictLookup name st.preset_store = some pr)
    (hfail : (activate_preset env st name).1.1 = false) :
    (activate_preset env st name).2.active_preset_name = none ∧
    (activate_preset env st name).2.active_preset = none := by
  have he : ensure_preset st name = (true, some pr, "") := by
    simp [ensure_preset, hstore]
  simp only [activate_preset, he] at hfail ⊢
  cases hc : (set_provider env st pr.provider (some pr.customizations) true).1.1
  · simp only [hc, Bool.false_eq_true, if_false]
    exact ⟨(set_provider_frame env st _ _ true).2.2.2.2.1,
           (set_provider_frame env st _ _ true).2.2.2.1⟩
  · simp [hc] at hfail

/-- C2 witness: the amended claim at the concrete counterexample input. -/
theorem c2_activate_preset_failure_witness :
    (activate_preset envLoadFail stC1 "creative").2.active_preset_name = none ∧
    (activate_preset envLoadFail stC1 "creative").2.active_preset = none :=
  c2_activate_preset_failure envLoadFail stC1 "creative" presetCreative
    (by decide) (by decide)

/-- C5: `set_conversation_tokens` resolves a provider by conversation
presence — the active provider when no conversation is active, else the
provider named by the conversation's last stored message — and stores the
token count exactly when that provider exists and declares chat capability,
storing null otherwise; a failing last-message lookup raises. -/
theorem c5_set_conversation_tokens (env : Env) (st : State) (t : Nat) :
    (st.conversation_id = none →
       set_conversation_tokens env st t =
         .ok { st with conversation_tokens :=
                 if st.provider.capChat then some t else none }) ∧
    (∀ cid lm, st.conversation_id = some cid → env.getLastMessage cid = .ok lm →
       set_conversation_tokens env st t =
         .ok { st with conversation_tokens :=
                 if (env.getProviderFromName lm.provider).elim false (fun p => p.capChat)
                 then some t else none }) ∧
    (∀ cid e, st.conversation_id = some cid → env.getLastMessage cid = .error e →
       set_conversation_tokens env st t = .error e) := by
  refine ⟨?_, ?_, ?_⟩
  · intro h
    simp [set_conversation_tokens, h]
  · intro cid lm h hlm
    simp [set_conversation_tokens, h, hlm]
  · intro cid e h he
    simp [set_conversation_tokens, h, he]

/-- C5 witness: with no active conversation and a provider without chat
capability, the stored token count is null. -/
theorem c5_set_conversation_tokens_witness :
    set_conversation_tokens env0 stNoChat 42 =
      .ok { stNoChat with conversation_tokens := none } :=
  (c5_set_conversation_tokens env0 stNoChat 42).1 rfl

/-- C3: evaluation at the failing input.  With the stored
`request_overrides` attribute empty, calling `make_request` with an override
map that requests a deferred activation of `fast-mode` performs no deferred
activation (the trace after a fully successful request contains no
`activatedPreset` event), even though extracting from the map passed to the
call yields the `fast-mode` activation: line 512 extracts from
`self.request_overrides`, not from the call's override map. -/
theorem c3_extraction_ignores_call_overrides :
    st0.request_overrides = [] ∧
    env0.extract [("preset", "fast-mode")] st0.active_preset_name =
      .ok ("fast-mode", [], true) ∧
    (make_request env0 st0 "hello" [("preset", "fast-mode")]).map (fun r => r.1) =
      .ok (true, some "llm-response", "") ∧
    (make_request env0 st0 "hello" [("preset", "fast-mode")]).map (fun r => r.2.2) =
      .ok [Event.calledLLM, Event.storedResponse] := by
  refine ⟨rfl, rfl, rfl, rfl⟩

/-- `retrieve_old_messages` only consults the message store. -/
theorem retrieve_old_messages_congr {env₁ env₂ : Env}
    (h : env₁.getMessages = env₂.getMessages) (cid : Option Nat) :
    retrieve_old_messages env₁ cid = retrieve_old_messages env₂ cid := by
  unfold retrieve_old_messages
  rw [h]

/-- `set_conversation_tokens` only consults the last message and the provider
registry lookup. -/
theorem set_conversation_tokens_congr {env₁ env₂ : Env}
    (h1 : env₁.getLastMessage = env₂.getLastMessage)
    (h2 : env₁.getProviderFromName = env₂.getProviderFromName)
    (s : State) (t : Nat) :
    set_conversation_tokens env₁ s t = set_conversation_tokens env₂ s t := by
  unfold set_conversation_tokens
  rw [h1, h2]

/-- The returned `(success, response, message)` triple of `make_request` does
not depend on the environment components that only the deferred preset
activation uses. -/
theorem make_request_result_env_agnostic (env₁ env₂ : Env) (st : State)
    (input : String) (ov : Overrides)
    (hgm : env₁.getMessages = env₂.getMessages)
    (hex : env₁.extract = env₂.extract)
    (hpr : env₁.prepareAskRequest = env₂.prepareAskRequest)
    (hcl : env₁.callLLM = env₂.callLLM)
    (hpo : env₁.postResponse = env₂.postResponse)
    (hst : env₁.storeConversationMessages = env₂.storeConversationMessages)
    (htc : env₁.tokenCount = env₂.tokenCount)
    (hlm : env₁.getLastMessage = env₂.getLastMessage)
    (hgp : env₁.getProviderFromName = env₂.getProviderFromName) :
    (make_request env₁ st input ov).map (fun r => r.1) =
      (make_request env₂ st input ov).map (fun r => r.1) := by
  simp only [make_request, retrieve_old_messages_congr hgm,
             set_conversation_tokens_congr hlm hgp, hex, hpr, hcl, hpo, hst, htc]
  repeat first
    | rfl
    | split

/-- C7: the deferred preset activation runs only after the response has been
produced (`calledLLM`) and stored (`storedResponse`) — a trace containing an
`activatedPreset` event is exactly `[calledLLM, storedResponse,
activatedPreset n]` — and the outcome of that activation (the environment
components only it uses: `full_name`, `load_provider`,
`set_customization_value`, the base-class `set_model`) cannot change the
success flag, response content or message returned by `make_request`. -/
theorem c7_deferred_preset_activation (env : Env) (st : State) (input : String)
    (ov : Overrides) (f : String → String) (g : String → Except String Provider)
    (sc : Provider → String → String → Bool × Provider × String)
    (sm : Provider → String → Bool × Option (List (String × String)) × String) :
    ((make_request { env with fullName := f, loadProvider := g,
                              setCustomizationValue := sc, superSetModel := sm }
        st input ov).map (fun r => r.1) =
       (make_request env st input ov).map (fun r => r.1)) ∧
    (∀ n r, make_request env st input ov = .ok r →
       Event.activatedPreset n ∈ r.2.2 →
       (make_request env st input ov).map (fun x => x.2.2) =
         .ok [Event.calledLLM, Event.storedResponse, Event.activatedPreset n]) := by
  constructor
  · exact make_request_result_env_agnostic _ env st input ov
      rfl rfl rfl rfl rfl rfl rfl rfl rfl
  · intro n r hr hmem
    rw [hr]
    simp only [Except.map, Except.ok.injEq]
    simp only [make_request] at hr
    split at hr
    · exact absurd hr (by simp)
    · split at hr
      · rw [Except.ok.injEq] at hr
        subst hr
        simp at hmem
      · split at hr
        · rw [Except.ok.injEq] at hr
          subst hr
          simp at hmem
        · split at hr
          · rw [Except.ok.injEq] at hr
            subst hr
            simp at hmem
          · split at hr
            · exact absurd hr (by simp)
            · split at hr
              · rw [Except.ok.injEq] at hr
                subst hr
                simp at hmem
                subst hmem
                rfl
              · rw [Except.ok.injEq] at hr
                subst hr
                simp at hmem

/-- C7 witness: a concrete fully successful request whose stored override
attribute requests a deferred activation of `fast-mode` activates it only
after the call and store events. -/
theorem c7_deferred_preset_activation_witness :
    (make_request env0 stC7 "hello" []).map (fun x => x.2.2) =
      .ok [Event.calledLLM, Event.storedResponse, Event.activatedPreset "fast-mode"] :=
  (c7_deferred_preset_activation env0 stC7 "hello" [] (fun n => n)
      (fun _ => .ok provChat) (fun p _ _ => (true, p, ""))
      (fun _ _ => (true, none, ""))).2
    "fast-mode" _ rfl (by decide)

/-- `set_provider` preserves the conversation id. -/
theorem set_provider_conversation_id (env : Env) (s : State) (n : String)
    (c : Option (List (String × String))) (r : Bool) :
    (set_provider env s n c r).2.conversation_id = s.conversation_id :=
  (set_provider_frame env s n c r).2.1

/-- `activate_preset` preserves the conversation id. -/
theorem activate_preset_conversation_id (env : Env) (s : State) (name : String) :
    (activate_preset env s name).2.conversation_id = s.conversation_id :=
  (activate_preset_frame env s name).2.1

/-- `set_model` preserves the conversation id. -/
theorem set_model_conversation_id (env : Env) (s : State) (mn : String) :
    (set_model env s mn).2.conversation_id = s.conversation_id := by
  rw [set_model_state]

/-- `init_system_message` preserves the conversation id. -/
theorem init_system_message_conversation_id (env : Env) (s : State) :
    (init_system_message env s).conversation_id = s.conversation_id := rfl

/-- `init_provider` preserves the conversation id. -/
theorem init_provider_conversation_id (env : Env) (s : State) :
    (init_provider env s).1.conversation_id = s.conversation_id := by
  simp only [init_provider]
  split
  · split
    · rw [activate_preset_conversation_id]
      rfl
    · rw [set_provider_conversation_id, activate_preset_conversation_id]
      rfl
  · rw [set_provider_conversation_id]
    rfl

/-- The warning list emitted by `init_provider` is at most one warning and
contains no configuration event. -/
theorem init_provider_events_shape (env : Env) (s : State) :
    (init_provider env s).2 = [] ∨ ∃ w, (init_provider env s).2 = [Event.warning w] := by
  simp only [init_provider]
  split
  · split
    · exact Or.inl rfl
    · exact Or.inr ⟨_, rfl⟩
  · exact Or.inl rfl

/-- Reduction of `set_conversation_tokens` when a conversation is active and
its last message loads. -/
theorem set_conversation_tokens_of_id (env : Env) (s : State) (t : Nat)
    (cid : Nat) (lm : Msg) (hcid : s.conversation_id = some cid)
    (hlm : env.getLastMessage cid = .ok lm) :
    set_conversation_tokens env s t =
      .ok { s with conversation_tokens :=
              if (env.getProviderFromName lm.provider).elim false (fun p => p.capChat)
              then some t else none } := by
  simp [set_conversation_tokens, hcid, hlm]

/-- `init_provider` emits no configuration events. -/
theorem init_provider_no_config_events (env : Env) (s : State) :
    List.filter isConfigEvent (init_provider env s).2 = [] := by
  rcases init_provider_events_shape env s with h | ⟨w, h⟩ <;> simp [h, isConfigEvent]

theorem switch_to_conversation_shape (env : Env) (st : State) (cid : Nat)
    (cd : ConvData) (m : String) (lm : Msg)
    (hgc : get_conversation env st (some cid) = (true, some cd, m))
    (hlm : env.getLastMessage cid = .ok lm) :
    ∃ stF tr, switch_to_conversation env st cid = .ok (stF, tr) ∧
      tr.getLast? = some (Event.recomputedTokens (env.tokenCount (some cid))) ∧
      stF.conversation_tokens =
        (if (env.getProviderFromName lm.provider).elim false (fun p => p.capChat)
         then some (env.tokenCount (some cid)) else none) ∧
      configCount tr = 1 ∧
      (Event.fellBackToDefault ∈ tr → ∃ w, Event.warning w ∈ tr) ∧
      (∀ p mo, Event.configuredByProviderModel p mo ∈ tr →
         lm.preset = "" ∨ (activate_preset env (stWithConv st cid cd) lm.preset).1.1 = false) ∧
      (Event.fellBackToDefault ∈ tr →
         lm.preset = "" ∨ (activate_preset env (stWithConv st cid cd) lm.preset).1.1 = false) := by
  simp only [switch_to_conversation, hgc, hlm]
  by_cases hp : lm.preset = ""
  · simp [hp]
    by_cases hpm : ¬lm.provider = "" ∧ ¬lm.model = ""
    · simp [hpm]
      by_cases hsp : (set_provider env (stWithConv st cid cd) lm.provider none true).1.1 = true
      · simp [hsp]
        by_cases hsm : (set_model env (set_provider env (stWithConv st cid cd) lm.provider none true).2 lm.model).1.1 = true
        · simp [hsm]
          rw [set_conversation_tokens_of_id env _ (env.tokenCount (some cid)) cid lm
            (by simp [init_system_message_conversation_id, set_model_conversation_id,
                      set_provider_conversation_id, stWithConv]) hlm]
          refine ⟨_, _, rfl, rfl, rfl, rfl, ?_⟩
          intro h
          simp at h
        · simp [hsm]
          rw [set_conversation_tokens_of_id env _ (env.tokenCount (some cid)) cid lm
            (by simp [init_provider_conversation_id, set_model_conversation_id,
                      set_provider_conversation_id, stWithConv]) hlm]
          refine ⟨_, _, rfl, ?_, rfl, ?_, ?_⟩
          · simp only [← List.cons_append, List.getLast?_append_cons, List.getLast?_singleton]
          · simp [configCount, List.filter_append, isConfigEvent,
                  init_provider_no_config_events]
          · intro h
            exact ⟨"Invalid conversation provider/model, falling back to default provider/model", by simp⟩
      · simp [hsp]
        rw [set_conversation_tokens_of_id env _ (env.tokenCount (some cid)) cid lm
          (by simp [init_provider_conversation_id, set_provider_conversation_id, stWithConv]) hlm]
        refine ⟨_, _, rfl, ?_, rfl, ?_, ?_⟩
        · simp only [← List.cons_append, List.getLast?_append_cons, List.getLast?_singleton]
        · simp [configCount, List.filter_append, isConfigEvent,
                init_provider_no_config_events]
        · intro h
          exact ⟨"Invalid conversation provider/model, falling back to default provider/model", by simp⟩
    · simp [hpm]
      rw [set_conversation_tokens_of_id env _ (env.tokenCount (some cid)) cid lm
        (by simp [init_provider_conversation_id, stWithConv]) hlm]
      refine ⟨_, _, rfl, ?_, rfl, ?_, ?_⟩
      · simp only [← List.cons_append, List.getLast?_append_cons, List.getLast?_singleton]
      · simp [configCount, List.filter_append, isConfigEvent,
              init_provider_no_config_events]
      · intro h
        exact ⟨"Invalid conversation provider/model, falling back to default provider/model", by simp⟩
  · simp [hp]
    by_cases hact : (activate_preset env (stWithConv st cid cd) lm.preset).1.1 = true
    · simp [hact]
      rw [set_conversation_tokens_of_id env _ (env.tokenCount (some cid)) cid lm
        (by simp [activate_preset_conversation_id, stWithConv]) hlm]
      refine ⟨_, _, rfl, rfl, rfl, rfl, ?_, ?_, ?_⟩
      · intro h; simp at h
      · intro p mo h; simp at h
      · intro h; simp at h
    · have hactf : (activate_preset env (stWithConv st cid cd) lm.preset).1.1 = false := by
        simpa using hact
      simp [hactf]
      by_cases hpm : ¬lm.provider = "" ∧ ¬lm.model = ""
      · simp [hpm]
        by_cases hsp : (set_provider env (activate_preset env (stWithConv st cid cd) lm.preset).2 lm.provider none true).1.1 = true
        · simp [hsp]
          by_cases hsm : (set_model env (set_provider env (activate_preset env (stWithConv st cid cd) lm.preset).2 lm.provider none true).2 lm.model).1.1 = true
          · simp [hsm]
            rw [set_conversation_tokens_of_id env _ (env.tokenCount (some cid)) cid lm
              (by simp [init_system_message_conversation_id, set_model_conversation_id,
                        set_provider_conversation_id, activate_preset_conversation_id,
                        stWithConv]) hlm]
            refine ⟨_, _, rfl, rfl, rfl, ?_, ?_⟩
            · simp [configCount, isConfigEvent]
            · intro h; simp at h
          · simp [hsm]
            rw [set_conversation_tokens_of_id env _ (env.tokenCount (some cid)) cid lm
              (by simp [init_provider_conversation_id, set_model_conversation_id,
                        set_provider_conversation_id, activate_preset_conversation_id,
                        stWithConv]) hlm]
            refine ⟨_, _, rfl, ?_, rfl, ?_, ?_⟩
            · simp only [← List.cons_append, List.getLast?_append_cons, List.getLast?_singleton]
            · simp [configCount, List.filter_append, isConfigEvent,
                    init_provider_no_config_events]
            · intro h
              exact ⟨"Invalid conversation provider/model, falling back to default provider/model", by simp⟩
        · simp [hsp]
          rw [set_conversation_tokens_of_id env _ (env.tokenCount (some cid)) cid lm
            (by simp [init_provider_conversation_id, set_provider_conversation_id,
                      activate_preset_conversation_id, stWithConv]) hlm]
          refine ⟨_, _, rfl, ?_, rfl, ?_, ?_⟩
          · simp only [← List.cons_append, List.getLast?_append_cons, List.getLast?_singleton]
          · simp [configCount, List.filter_append, isConfigEvent,
                  init_provider_no_config_events]
          · intro h
            exact ⟨"Invalid conversation provider/model, falling back to default provider/model", by simp⟩
      · simp [hpm]
        rw [set_conversation_tokens_of_id env _ (env.tokenCount (some cid)) cid lm
          (by simp [init_provider_conversation_id, activate_preset_conversation_id,
                    stWithConv]) hlm]
        refine ⟨_, _, rfl, ?_, rfl, ?_, ?_⟩
        · simp only [← List.cons_append, List.getLast?_append_cons, List.getLast?_singleton]
        · simp [configCount, List.filter_append, isConfigEvent,
                init_provider_no_config_events]
        · intro h
          exact ⟨"Invalid conversation provider/model, falling back to default provider/model", by simp⟩

/-- C8: `switch_to_conversation` raises a hard error when the conversation or
its last message cannot be loaded; otherwise it reconstructs session state in
strict order with first success winning — preset from the last message, then
provider plus model, then the default-provider initialization path with a
non-fatal warning (exactly one configuration event occurs, the provider+model
path runs only when the preset attempt was absent or failed, and the fallback
emits a warning) — and after configuration by any path it recomputes and
stores the conversation's token count as the final step. -/
theorem c8_switch_to_conversation (env : Env) (st : State) (cid : Nat) :
    ((get_conversation env st (some cid)).1 = false →
       switch_to_conversation env st cid =
         .error (get_conversation env st (some cid)).2.2) ∧
    (∀ cd m, get_conversation env st (some cid) = (true, some cd, m) →
       (∀ e, env.getLastMessage cid = .error e →
          switch_to_conversation env st cid = .error e) ∧
       (∀ lm, env.getLastMessage cid = .ok lm →
          ((switch_to_conversation env st cid).map (fun r => r.2.getLast?) =
             .ok (some (Event.recomputedTokens (env.tokenCount (some cid)))) ∧
           (switch_to_conversation env st cid).map (fun r => r.1.conversation_tokens) =
             .ok (if (env.getProviderFromName lm.provider).elim false (fun p => p.capChat)
                  then some (env.tokenCount (some cid)) else none) ∧
           (switch_to_conversation env st cid).map (fun r => configCount r.2) = .ok 1 ∧
           (∀ s' t', switch_to_conversation env st cid = .ok (s', t') →
              (Event.fellBackToDefault ∈ t' → ∃ w, Event.warning w ∈ t') ∧
              (∀ p mo, Event.configuredByProviderModel p mo ∈ t' →
                 lm.preset = "" ∨
                   (activate_preset env (stWithConv st cid cd) lm.preset).1.1 = false) ∧
              (Event.fellBackToDefault ∈ t' →
                 lm.preset = "" ∨
                   (activate_preset env (stWithConv st cid cd) lm.preset).1.1 = false))))) := by
  refine ⟨?_, ?_⟩
  · intro h
    rcases hgc : get_conversation env st (some cid) with ⟨b, op, msg⟩
    have hb : b = false := by rw [hgc] at h; exact h
    subst hb
    simp [switch_to_conversation, hgc]
  · intro cd m hgc
    refine ⟨?_, ?_⟩
    · intro e he
      simp [switch_to_conversation, hgc, he]
    · intro lm hlm
      obtain ⟨stF, tr, heq, h1, h2, h3, h4, h5, h6⟩ :=
        switch_to_conversation_shape env st cid cd m lm hgc hlm
      refine ⟨?_, ?_, ?_, ?_⟩
      · rw [heq]
        simp only [Except.map]
        rw [h1]
      · rw [heq]
        simp only [Except.map]
        rw [h2]
      · rw [heq]
        simp only [Except.map]
        rw [h3]
      · intro s' t' heq'
        rw [heq] at heq'
        rw [Except.ok.injEq] at heq'
        have ht : tr = t' := congrArg Prod.snd heq'
        subst ht
        exact ⟨h4, h5, h6⟩

/-- C8 witness: switching to conversation 7 whose last message names the
stored preset `creative` succeeds, ends with the token recomputation and
records exactly one configuration event. -/
theorem c8_switch_to_conversation_witness :
    (switch_to_conversation envC8 st0 7).map (fun r => r.2.getLast?) =
      .ok (some (Event.recomputedTokens 5)) ∧
    (switch_to_conversation envC8 st0 7).map (fun r => configCount r.2) = .ok 1 :=
  ⟨(((c8_switch_to_conversation envC8 st0 7).2 ⟨"Chat 7", []⟩ "" rfl).2 msgCreative rfl).1,
   (((c8_switch_to_conversation envC8 st0 7).2 ⟨"Chat 7", []⟩ "" rfl).2 msgCreative rfl).2.2.1⟩
